import Mathlib

/-!
Shallow embedding of the Bastion Protocol `StateChannel` contract
(ERC-7824 state channels, Solidity 0.8) and proofs about its operations.

Modelling conventions:
- `uint256` values are `Nat`; Solidity 0.8 checked additions revert on
  overflow, modelled by explicit `UINT256 <= a + b` guards that produce
  an `overflow` error.
- `keccak256(abi.encodePacked(...))` is modelled as an injective encoding:
  a channel id is the tuple of inputs that produced it, and a message hash
  is an inductive carrying the packed fields.  The eth-signed-message
  prefix applied by `toEthSignedMessageHash` is injective, so it is folded
  into the hash model.
- ECDSA signatures are idealized: a signature carries the address it was
  made by and the hash it signed; `recover` returns that address exactly
  when the hash matches, and address 0 otherwise.
- Reverts are modelled by `Except`: an `.error` result means the whole
  call reverted and the pre-state is retained unchanged.
- `transfer` reverts when the contract balance is insufficient, as in the
  EVM; successful transfers are appended to a `transfers` log.
-/

namespace StateChannel

/-- The bound 2^256 on Solidity uint256 arithmetic. -/
def UINT256 : Nat := 2 ^ 256

/-- One day in seconds, the dispute window (`DISPUTE_TIMEOUT = 1 days`). -/
def DISPUTE_TIMEOUT : Nat := 86400

/-- Minimum channel timeout (`MIN_TIMEOUT = 1 hours`). -/
def MIN_TIMEOUT : Nat := 3600

/-- Maximum channel timeout (`MAX_TIMEOUT = 30 days`). -/
def MAX_TIMEOUT : Nat := 2592000

/-- A channel id: `keccak256(abi.encodePacked(participant1, participant2,
block.timestamp, block.number))` modelled as the injective tuple of its
preimage fields. -/
structure ChannelId where
  p1 : Nat
  p2 : Nat
  timestamp : Nat
  blockNumber : Nat
deriving DecidableEq, Repr

/-- The `ChannelData` struct of `IERC7824`. -/
structure ChannelData where
  participant1 : Nat
  participant2 : Nat
  balance1 : Nat
  balance2 : Nat
  nonce : Nat
  timeout : Nat
  isActive : Bool
deriving DecidableEq, Repr

/-- Solidity mapping default: the all-zero channel record. -/
def emptyChannel : ChannelData :=
  { participant1 := 0, participant2 := 0, balance1 := 0, balance2 := 0
    nonce := 0, timeout := 0, isActive := false }

/-- Message hashes produced by the contract, as injective encodings of the
packed fields: `_getStateUpdateHash` packs (channelId, nonce, balance1,
balance2); `relayTransaction` packs (channelId, nonce, relayer). -/
inductive MsgHash where
  | stateUpdateHash (channelId : ChannelId) (nonce balance1 balance2 : Nat)
  | relayHash (channelId : ChannelId) (nonce : Nat) (relayer : Nat)
deriving DecidableEq, Repr

/-- An idealized ECDSA signature: the signer that produced it and the hash
it signed. -/
structure Sig where
  signer : Nat
  hash : MsgHash
deriving DecidableEq, Repr

/-- Idealized `ECDSA.recover`: yields the signature's signer exactly when
the hash matches what was signed, and the zero address otherwise. -/
def recoverSigner (h : MsgHash) (s : Sig) : Nat :=
  if s.hash = h then s.signer else 0

/-- Models `_isValidSignature(messageHash, signature, signer)`: recover and compare
to the expected signer. -/
def isValidSig (h : MsgHash) (s : Sig) (signer : Nat) : Bool :=
  recoverSigner h s == signer

/-- The `StateUpdate` struct of `IERC7824`. -/
structure StateUpdate where
  channelId : ChannelId
  nonce : Nat
  balance1 : Nat
  balance2 : Nat
  signature1 : Sig
  signature2 : Sig
deriving DecidableEq, Repr

/-- Models `_getStateUpdateHash(update)`. -/
def getStateUpdateHash (u : StateUpdate) : MsgHash :=
  MsgHash.stateUpdateHash u.channelId u.nonce u.balance1 u.balance2

/-- The revert causes of the contract (each `require` string or checked
arithmetic failure). -/
inductive SCError where
  | notParticipant
  | channelInactive
  | channelInDispute
  | invalidNonce
  | invalidBalanceSum
  | invalidSig1
  | invalidSig2
  | participantsEqual
  | zeroParticipant
  | invalidTimeout
  | insufficientFunds
  | alreadyInDispute
  | noActiveDispute
  | disputeTimeoutExceeded
  | disputePeriodNotEnded
  | unauthorizedRelayer
  | invalidRelayerSig
  | notOwner
  | noFees
  | channelStillActive
  | transferFailed
  | overflow
deriving DecidableEq, Repr

/-- First-match association list lookup with a default, modelling a
Solidity mapping. -/
def assocGet {α β : Type} [DecidableEq α] (d : β) (l : List (α × β)) (k : α) : β :=
  match l with
  | [] => d
  | (k', v) :: t => if k = k' then v else assocGet d t k

/-- Mapping write: prepend, shadowing any earlier binding. -/
def assocSet {α β : Type} (l : List (α × β)) (k : α) (v : β) : List (α × β) :=
  (k, v) :: l

/-- The contract's storage, plus the contract's ether balance and a log of
outgoing transfers (recipient, amount). -/
structure SCState where
  channels : List (ChannelId × ChannelData)
  disputeTimeouts : List (ChannelId × Nat)
  inDispute : List (ChannelId × Bool)
  authorizedRelayers : List (Nat × Bool)
  channelFee : Nat
  relayerFee : Nat
  owner : Nat
  contractBalance : Nat
  transfers : List (Nat × Nat)
deriving DecidableEq, Repr

/-- Reads `channels[channelId]` (zero struct when absent). -/
def getChannel (s : SCState) (id : ChannelId) : ChannelData :=
  assocGet emptyChannel s.channels id

/-- Reads `inDispute[channelId]` (false when absent). -/
def isInDispute (s : SCState) (id : ChannelId) : Bool :=
  assocGet false s.inDispute id

/-- Reads `disputeTimeouts[channelId]` (0 when absent). -/
def disputeDeadline (s : SCState) (id : ChannelId) : Nat :=
  assocGet 0 s.disputeTimeouts id

/-- Reads `authorizedRelayers[relayer]` (false when absent). -/
def isAuthorizedRelayer (s : SCState) (r : Nat) : Bool :=
  assocGet false s.authorizedRelayers r

/-- The transaction context: `msg.sender`, `msg.value`, `block.timestamp`,
`block.number`. -/
structure CallCtx where
  sender : Nat
  value : Nat
  timestamp : Nat
  blockNumber : Nat
deriving DecidableEq, Repr

/-- Models `payable(recipient).transfer(amount)`: reverts when the contract lacks
the balance, otherwise debits it and logs the transfer. -/
def doTransfer (s : SCState) (recipient amount : Nat) : Except SCError SCState :=
  if s.contractBalance < amount then .error .transferFailed
  else .ok { s with contractBalance := s.contractBalance - amount
                    transfers := s.transfers ++ [(recipient, amount)] }

/-- The `onlyParticipant` modifier's test. -/
def isParticipant (c : ChannelData) (a : Nat) : Prop :=
  a = c.participant1 ∨ a = c.participant2

instance (c : ChannelData) (a : Nat) : Decidable (isParticipant c a) := by
  unfold isParticipant; infer_instance

/-- Models `updateChannel(update)`: modifiers `onlyActive(update.channelId)` and
`notInDispute(update.channelId)`, then the nonce check, the balance-sum
conservation check (Solidity 0.8 checked additions), and both participant
signatures against `_getStateUpdateHash(update)`. -/
def updateChannel (s : SCState) (u : StateUpdate) : Except SCError SCState :=
  if (getChannel s u.channelId).isActive = false then .error .channelInactive
  else if isInDispute s u.channelId = true then .error .channelInDispute
  else if u.nonce ≤ (getChannel s u.channelId).nonce then .error .invalidNonce
  else if UINT256 ≤ u.balance1 + u.balance2 then .error .overflow
  else if UINT256 ≤ (getChannel s u.channelId).balance1 + (getChannel s u.channelId).balance2 then
    .error .overflow
  else if u.balance1 + u.balance2
      ≠ (getChannel s u.channelId).balance1 + (getChannel s u.channelId).balance2 then
    .error .invalidBalanceSum
  else if isValidSig (getStateUpdateHash u) u.signature1 (getChannel s u.channelId).participant1
      = false then
    .error .invalidSig1
  else if isValidSig (getStateUpdateHash u) u.signature2 (getChannel s u.channelId).participant2
      = false then
    .error .invalidSig2
  else .ok { s with channels := assocSet s.channels u.channelId
                      { getChannel s u.channelId with
                          balance1 := u.balance1, balance2 := u.balance2, nonce := u.nonce } }

/-- Models `openChannel(participant1, participant2, amount1, amount2, timeout)`:
distinct non-zero participants, timeout in [MIN_TIMEOUT, MAX_TIMEOUT],
`msg.value >= amount1 + amount2 + channelFee` (checked additions).  The
channel id is derived from (participant1, participant2, block.timestamp,
block.number) and the record is written without any existence check. -/
def openChannel (ctx : CallCtx) (s : SCState) (p1 p2 a1 a2 tmo : Nat) :
    Except SCError (ChannelId × SCState) :=
  if p1 = p2 then .error .participantsEqual
  else if p1 = 0 ∨ p2 = 0 then .error .zeroParticipant
  else if tmo < MIN_TIMEOUT ∨ MAX_TIMEOUT < tmo then .error .invalidTimeout
  else if UINT256 ≤ a1 + a2 then .error .overflow
  else if UINT256 ≤ a1 + a2 + s.channelFee then .error .overflow
  else if ctx.value < a1 + a2 + s.channelFee then .error .insufficientFunds
  else
    let id : ChannelId :=
      { p1 := p1, p2 := p2, timestamp := ctx.timestamp, blockNumber := ctx.blockNumber }
    .ok (id, { s with contractBalance := s.contractBalance + ctx.value
                      channels := assocSet s.channels id
                        { participant1 := p1, participant2 := p2, balance1 := a1
                          balance2 := a2, nonce := 0, timeout := tmo, isActive := true } })

/-- The payout tail of `closeChannel`: transfer `balance1` to participant1
and `balance2` to participant2, each only when positive (a failed transfer
reverts the whole call). -/
def payOut (s : SCState) (c : ChannelData) : Except SCError SCState :=
  match (if 0 < c.balance1 then doTransfer s c.participant1 c.balance1 else .ok s) with
  | .error e => .error e
  | .ok s3 =>
    if 0 < c.balance2 then doTransfer s3 c.participant2 c.balance2 else .ok s3

/-- Models `closeChannel(channelId, finalUpdate)`: modifiers `onlyParticipant`,
`onlyActive`, `notInDispute`; when `finalUpdate.nonce > 0` the final update
is first applied through `updateChannel` (a revert there reverts the whole
call); then the channel is marked inactive and the stored balances are paid
out without being zeroed. -/
def closeChannel (ctx : CallCtx) (s : SCState) (id : ChannelId) (fu : StateUpdate) :
    Except SCError SCState :=
  let c0 := getChannel s id
  if ¬ isParticipant c0 ctx.sender then .error .notParticipant
  else if c0.isActive = false then .error .channelInactive
  else if isInDispute s id = true then .error .channelInDispute
  else
    match (if 0 < fu.nonce then updateChannel s fu else .ok s) with
    | .error e => .error e
    | .ok s1 =>
      let c := getChannel s1 id
      payOut { s1 with channels := assocSet s1.channels id { c with isActive := false } } c

/-- Models `disputeChannel(channelId)`: modifiers `onlyParticipant`, `onlyActive`;
requires no open dispute; records the dispute and sets the deadline to
`block.timestamp + DISPUTE_TIMEOUT` (checked addition). -/
def disputeChannel (ctx : CallCtx) (s : SCState) (id : ChannelId) : Except SCError SCState :=
  let c := getChannel s id
  if ¬ isParticipant c ctx.sender then .error .notParticipant
  else if c.isActive = false then .error .channelInactive
  else if isInDispute s id = true then .error .alreadyInDispute
  else if UINT256 ≤ ctx.timestamp + DISPUTE_TIMEOUT then .error .overflow
  else .ok { s with inDispute := assocSet s.inDispute id true
                    disputeTimeouts := assocSet s.disputeTimeouts id
                      (ctx.timestamp + DISPUTE_TIMEOUT) }

/-- Models `resolveDispute(channelId, update)`: modifier `onlyParticipant`;
requires an active dispute and `block.timestamp <= disputeTimeouts[id]`;
then validates the update through `updateChannel` (whose `notInDispute`
modifier reads the same dispute flag) and, if that call returns, clears the
dispute and deletes the deadline. -/
def resolveDispute (ctx : CallCtx) (s : SCState) (id : ChannelId) (u : StateUpdate) :
    Except SCError SCState :=
  let c := getChannel s id
  if ¬ isParticipant c ctx.sender then .error .notParticipant
  else if isInDispute s id = false then .error .noActiveDispute
  else if disputeDeadline s id < ctx.timestamp then .error .disputeTimeoutExceeded
  else
    match updateChannel s u with
    | .error e => .error e
    | .ok s1 => .ok { s1 with inDispute := assocSet s1.inDispute id false
                              disputeTimeouts := assocSet s1.disputeTimeouts id 0 }

/-- Models `withdrawTimelock(channelId)`: modifier `onlyParticipant` (note: no
`onlyActive` modifier); requires an active dispute and
`block.timestamp > disputeTimeouts[id]`; marks the channel inactive, clears
the dispute, and pays `total / 2` to participant1 and the rest to
participant2 (checked addition for the total). -/
def withdrawTimelock (ctx : CallCtx) (s : SCState) (id : ChannelId) : Except SCError SCState :=
  let c := getChannel s id
  if ¬ isParticipant c ctx.sender then .error .notParticipant
  else if isInDispute s id = false then .error .noActiveDispute
  else if ctx.timestamp ≤ disputeDeadline s id then .error .disputePeriodNotEnded
  else if UINT256 ≤ c.balance1 + c.balance2 then .error .overflow
  else
    let s1 := { s with channels := assocSet s.channels id { c with isActive := false }
                       inDispute := assocSet s.inDispute id false }
    let total := c.balance1 + c.balance2
    match doTransfer s1 c.participant1 (total / 2) with
    | .error e => .error e
    | .ok s2 => doTransfer s2 c.participant2 (total - total / 2)

/-- Models `relayTransaction(update, relayer, relayerSignature)`: requires the
relayer to be authorized and the relayer signature to verify over the
packed (channelId, nonce, relayer); applies the update via `updateChannel`
and pays `relayerFee` to the relayer. -/
def relayTransaction (s : SCState) (u : StateUpdate) (relayer : Nat) (rsig : Sig) :
    Except SCError SCState :=
  if isAuthorizedRelayer s relayer = false then .error .unauthorizedRelayer
  else if isValidSig (MsgHash.relayHash u.channelId u.nonce relayer) rsig relayer = false then
    .error .invalidRelayerSig
  else
    match updateChannel s u with
    | .error e => .error e
    | .ok s1 => doTransfer s1 relayer s1.relayerFee

/-- Models `withdrawFees()`: owner only; requires a positive contract balance and
transfers `address(this).balance` — the entire contract balance — to the
owner. -/
def withdrawFees (ctx : CallCtx) (s : SCState) : Except SCError SCState :=
  if ctx.sender ≠ s.owner then .error .notOwner
  else if s.contractBalance = 0 then .error .noFees
  else doTransfer s s.owner s.contractBalance

/-- Models `emergencyWithdraw(channelId)`: owner only; requires the channel to be
inactive; when the stored total is positive, pays the stored `balance1` and
`balance2` to the participants and zeroes both stored balances (checked
addition for the total). -/
def emergencyWithdraw (ctx : CallCtx) (s : SCState) (id : ChannelId) : Except SCError SCState :=
  if ctx.sender ≠ s.owner then .error .notOwner
  else
    let c := getChannel s id
    if c.isActive = true then .error .channelStillActive
    else if UINT256 ≤ c.balance1 + c.balance2 then .error .overflow
    else if c.balance1 + c.balance2 = 0 then .ok s
    else
      match doTransfer s c.participant1 c.balance1 with
      | .error e => .error e
      | .ok s1 =>
        match doTransfer s1 c.participant2 c.balance2 with
        | .error e => .error e
        | .ok s2 =>
          let cz := { c with balance1 := 0, balance2 := 0 }
          .ok { s2 with channels := assocSet s2.channels id cz }

/-- The state written by a successful `updateChannel`. -/
def updatedState (s : SCState) (u : StateUpdate) : SCState :=
  { s with channels := assocSet s.channels u.channelId
             { getChannel s u.channelId with
                 balance1 := u.balance1, balance2 := u.balance2
                 nonce := u.nonce } }

/-! ## Concrete fixtures for witnesses -/

/-- A channel id between participants 1 and 2, opened at time 1000 in block 7. -/
def cid0 : ChannelId := { p1 := 1, p2 := 2, timestamp := 1000, blockNumber := 7 }

/-- An open channel: participants 1 and 2, balances 4 and 6, nonce 0. -/
def chan0 : ChannelData :=
  { participant1 := 1, participant2 := 2, balance1 := 4, balance2 := 6
    nonce := 0, timeout := 3600, isActive := true }

/-- A base state holding the open channel, with relayer 5 authorized and
the deposits plus fee on the contract balance. -/
def sBase : SCState :=
  { channels := [(cid0, chan0)], disputeTimeouts := [], inDispute := []
    authorizedRelayers := [(5, true)], channelFee := 3, relayerFee := 2
    owner := 9, contractBalance := 13, transfers := [] }

/-- A dual-signed state update moving one unit from participant 1 to 2. -/
def u1 : StateUpdate :=
  { channelId := cid0, nonce := 1, balance1 := 3, balance2 := 7
    signature1 := { signer := 1, hash := MsgHash.stateUpdateHash cid0 1 3 7 }
    signature2 := { signer := 2, hash := MsgHash.stateUpdateHash cid0 1 3 7 } }

/-- The state after applying `u1` to `sBase`. -/
def sAfter : SCState := (updateChannel sBase u1).toOption.getD sBase

/-- A copy of `u1` whose first signature was made by the wrong signer. -/
def uBadSig : StateUpdate :=
  { u1 with signature1 := { signer := 3, hash := MsgHash.stateUpdateHash cid0 1 3 7 } }

/-- The base state with an open dispute on the channel (deadline 88400). -/
def sDispute : SCState :=
  { sBase with inDispute := [(cid0, true)], disputeTimeouts := [(cid0, 88400)] }

/-- Participant 2 calling before the deadline. -/
def ctxResolve : CallCtx := { sender := 2, value := 0, timestamp := 2500, blockNumber := 9 }

/-- A valid relayer signature by relayer 5 over (cid0, 1, 5). -/
def rsig1 : Sig := { signer := 5, hash := MsgHash.relayHash cid0 1 5 }

/-- Participant 2 calling after the dispute deadline has passed. -/
def ctxLate : CallCtx := { sender := 2, value := 0, timestamp := 90000, blockNumber := 9 }

/-- The base state with the channel already closed (inactive record, no
dispute). -/
def sInact : SCState :=
  { sBase with channels := [(cid0, { chan0 with isActive := false })] }

/-- Participant 1 calling on the inactive channel. -/
def ctxC6 : CallCtx := { sender := 1, value := 0, timestamp := 5000, blockNumber := 10 }

/-- The administrator (owner 9) calling. -/
def ctxOwner : CallCtx := { sender := 9, value := 0, timestamp := 3000, blockNumber := 12 }

/-- A nonce-0 `StateUpdate`: tells `closeChannel` to skip the final update. -/
def fuZero : StateUpdate := { u1 with nonce := 0 }

/-- The state after the owner sweeps `withdrawFees` on `sBase`. -/
def sSwept : SCState := (withdrawFees ctxOwner sBase).toOption.getD sBase

/-- Participant 1 trying to close after the sweep. -/
def ctxCloseFail : CallCtx := { sender := 1, value := 0, timestamp := 3100, blockNumber := 13 }

/-- The base state with extra contract funds (other channels' deposits). -/
def sRich : SCState := { sBase with contractBalance := 30 }

/-- Participant 1 closing the channel. -/
def ctxClose : CallCtx := { sender := 1, value := 0, timestamp := 4000, blockNumber := 14 }

/-- The state after participant 1 closes the channel in `sRich` with no
final update. -/
def sC9 : SCState := (closeChannel ctxClose sRich cid0 fuZero).toOption.getD sRich

/-- A state before any channel is opened. -/
def sPre : SCState :=
  { channels := [], disputeTimeouts := [], inDispute := []
    authorizedRelayers := [(5, true)], channelFee := 3, relayerFee := 2
    owner := 9, contractBalance := 0, transfers := [] }

/-- The opening call: sender 1 supplies 13 wei at time 1000 in block 7. -/
def ctxOpen : CallCtx := { sender := 1, value := 13, timestamp := 1000, blockNumber := 7 }

/-- The state after the first `openChannel` (amounts 4 and 6). -/
def sO1 : SCState := ((openChannel ctxOpen sPre 1 2 4 6 3600).toOption.getD (cid0, sPre)).2

/-- The state after a second `openChannel` in the same block (amounts 2
and 8, timeout 7200). -/
def sO2 : SCState := ((openChannel ctxOpen sO1 1 2 2 8 7200).toOption.getD (cid0, sPre)).2

/-! ## Helper lemmas -/

theorem assocGet_assocSet_same {α β : Type} [DecidableEq α] (d : β) (l : List (α × β))
    (k : α) (v : β) : assocGet d (assocSet l k v) k = v := by
  simp [assocGet, assocSet]

theorem assocGet_assocSet_ne {α β : Type} [DecidableEq α] (d : β) (l : List (α × β))
    (k k' : α) (v : β) (h : k' ≠ k) : assocGet d (assocSet l k v) k' = assocGet d l k' := by
  simp [assocGet, assocSet, h]

/-- Reading back the channel record written by `updatedState`. -/
theorem getChannel_updatedState_same (s : SCState) (u : StateUpdate) :
    (getChannel (updatedState s u) u.channelId).balance1 = u.balance1 ∧
    (getChannel (updatedState s u) u.channelId).balance2 = u.balance2 ∧
    (getChannel (updatedState s u) u.channelId).nonce = u.nonce ∧
    (getChannel (updatedState s u) u.channelId).participant1
      = (getChannel s u.channelId).participant1 ∧
    (getChannel (updatedState s u) u.channelId).participant2
      = (getChannel s u.channelId).participant2 ∧
    (getChannel (updatedState s u) u.channelId).timeout = (getChannel s u.channelId).timeout ∧
    (getChannel (updatedState s u) u.channelId).isActive = (getChannel s u.channelId).isActive := by
  simp [getChannel, updatedState, assocGet_assocSet_same]

/-- Frame facts: `updatedState` touches only the channel map. -/
theorem updatedState_contractBalance (s : SCState) (u : StateUpdate) :
    (updatedState s u).contractBalance = s.contractBalance := rfl

theorem updatedState_relayerFee (s : SCState) (u : StateUpdate) :
    (updatedState s u).relayerFee = s.relayerFee := rfl

theorem updatedState_transfers (s : SCState) (u : StateUpdate) :
    (updatedState s u).transfers = s.transfers := rfl

theorem updatedState_inDispute (s : SCState) (u : StateUpdate) :
    (updatedState s u).inDispute = s.inDispute := rfl

theorem updatedState_disputeTimeouts (s : SCState) (u : StateUpdate) :
    (updatedState s u).disputeTimeouts = s.disputeTimeouts := rfl

theorem updatedState_owner (s : SCState) (u : StateUpdate) :
    (updatedState s u).owner = s.owner := rfl

/-- Inversion: everything a successful `updateChannel` implies. -/
theorem updateChannel_ok_inv {s : SCState} {u : StateUpdate} {s' : SCState}
    (h : updateChannel s u = .ok s') :
    (getChannel s u.channelId).isActive = true ∧
    isInDispute s u.channelId = false ∧
    (getChannel s u.channelId).nonce < u.nonce ∧
    u.balance1 + u.balance2 < UINT256 ∧
    u.balance1 + u.balance2
      = (getChannel s u.channelId).balance1 + (getChannel s u.channelId).balance2 ∧
    isValidSig (getStateUpdateHash u) u.signature1 (getChannel s u.channelId).participant1
      = true ∧
    isValidSig (getStateUpdateHash u) u.signature2 (getChannel s u.channelId).participant2
      = true ∧
    s' = updatedState s u := by
  unfold updateChannel at h
  split_ifs at h with h1 h2 h3 h4 h5 h6 h7 h8
  injection h with h9
  refine ⟨by simpa using h1, by simpa using h2, by omega, by omega, by omega,
    by simpa using h7, by simpa using h8, h9.symm⟩

/-- Construction: the success case of `updateChannel`. -/
theorem updateChannel_ok_of {s : SCState} {u : StateUpdate}
    (h1 : (getChannel s u.channelId).isActive = true)
    (h2 : isInDispute s u.channelId = false)
    (h3 : (getChannel s u.channelId).nonce < u.nonce)
    (h4 : u.balance1 + u.balance2 < UINT256)
    (h5 : u.balance1 + u.balance2
      = (getChannel s u.channelId).balance1 + (getChannel s u.channelId).balance2)
    (h6 : isValidSig (getStateUpdateHash u) u.signature1 (getChannel s u.channelId).participant1
      = true)
    (h7 : isValidSig (getStateUpdateHash u) u.signature2 (getChannel s u.channelId).participant2
      = true) :
    updateChannel s u = .ok (updatedState s u) := by
  unfold updateChannel updatedState
  rw [if_neg (by simp [h1]), if_neg (by simp [h2]), if_neg (by omega), if_neg (by omega),
    if_neg (by omega), if_neg (by omega), if_neg (by simp [h6]), if_neg (by simp [h7])]

/-! ## Claim theorems -/

/-- C2: every update accepted by `updateChannel` (and hence by every path
that routes through it: `relayTransaction`, `closeChannel`'s final update,
`resolveDispute`) preserves the channel's balance sum, and an update whose
balance sum differs from the channel's is never accepted (the call reverts,
leaving the state unchanged). -/
theorem updateChannel_conserves_balance_sum (s : SCState) (u : StateUpdate) :
    (∀ s', updateChannel s u = .ok s' →
      (getChannel s' u.channelId).balance1 + (getChannel s' u.channelId).balance2
        = (getChannel s u.channelId).balance1 + (getChannel s u.channelId).balance2) ∧
    (u.balance1 + u.balance2
        ≠ (getChannel s u.channelId).balance1 + (getChannel s u.channelId).balance2 →
      ∀ s', updateChannel s u ≠ .ok s') := by
  constructor
  · intro s' h
    obtain ⟨-, -, -, -, hsum, -, -, hs'⟩ := updateChannel_ok_inv h
    subst hs'
    obtain ⟨e1, e2, -⟩ := getChannel_updatedState_same s u
    omega
  · intro hne s' h
    obtain ⟨-, -, -, -, hsum, -, -, -⟩ := updateChannel_ok_inv h
    exact hne hsum

/-- Witness for C2: the concrete accepted update `u1` conserves 4 + 6. -/
theorem updateChannel_conserves_balance_sum_witness :
    (getChannel sAfter u1.channelId).balance1 + (getChannel sAfter u1.channelId).balance2
      = (getChannel sBase u1.channelId).balance1 + (getChannel sBase u1.channelId).balance2 :=
  (updateChannel_conserves_balance_sum sBase u1).1 sAfter (by rfl)

/-- C3: an update with a nonce at most the channel's current nonce is never
accepted, whatever its signatures; every accepted update stores its own,
strictly larger, nonce — so the channel nonce strictly increases across
accepted updates. -/
theorem updateChannel_nonce_monotonic (s : SCState) (u : StateUpdate) :
    (u.nonce ≤ (getChannel s u.channelId).nonce → ∀ s', updateChannel s u ≠ .ok s') ∧
    (∀ s', updateChannel s u = .ok s' →
      (getChannel s' u.channelId).nonce = u.nonce ∧
      (getChannel s u.channelId).nonce < u.nonce) := by
  constructor
  · intro hle s' h
    obtain ⟨-, -, hlt, -⟩ := updateChannel_ok_inv h
    omega
  · intro s' h
    obtain ⟨-, -, hlt, -, -, -, -, hs'⟩ := updateChannel_ok_inv h
    subst hs'
    refine ⟨?_, hlt⟩
    exact (getChannel_updatedState_same s u).2.2.1

/-- Witness for C3: the accepted update `u1` raises the stored nonce from 0
to 1. -/
theorem updateChannel_nonce_monotonic_witness :
    (getChannel sAfter u1.channelId).nonce = u1.nonce ∧
    (getChannel sBase u1.channelId).nonce < u1.nonce :=
  (updateChannel_nonce_monotonic sBase u1).2 sAfter (by rfl)

/-- C4: on an active, undisputed channel, an update with a valid nonce and
balance sum is still rejected whenever either participant's signature fails
to verify against the canonical state-update hash — the call reverts with
the corresponding invalid-signature error, leaving the state unchanged. -/
theorem updateChannel_requires_both_signatures (s : SCState) (u : StateUpdate)
    (hact : (getChannel s u.channelId).isActive = true)
    (hnd : isInDispute s u.channelId = false)
    (hn : (getChannel s u.channelId).nonce < u.nonce)
    (hov : u.balance1 + u.balance2 < UINT256)
    (hsum : u.balance1 + u.balance2
      = (getChannel s u.channelId).balance1 + (getChannel s u.channelId).balance2)
    (hbad : isValidSig (getStateUpdateHash u) u.signature1 (getChannel s u.channelId).participant1
        = false ∨
      isValidSig (getStateUpdateHash u) u.signature2 (getChannel s u.channelId).participant2
        = false) :
    updateChannel s u = .error .invalidSig1 ∨ updateChannel s u = .error .invalidSig2 := by
  unfold updateChannel
  rw [if_neg (by simp [hact]), if_neg (by simp [hnd]), if_neg (by omega), if_neg (by omega),
    if_neg (by omega), if_neg (by omega)]
  by_cases h1 : isValidSig (getStateUpdateHash u) u.signature1
      (getChannel s u.channelId).participant1 = false
  · left
    rw [if_pos h1]
  · right
    rcases hbad with hb | hb
    · exact absurd hb h1
    · rw [if_neg h1, if_pos hb]

/-- Witness for C4: with a valid nonce and balance sum but a first signature
by signer 3 instead of participant 1, the update is rejected. -/
theorem updateChannel_requires_both_signatures_witness :
    updateChannel sBase uBadSig = .error .invalidSig1 ∨
    updateChannel sBase uBadSig = .error .invalidSig2 :=
  updateChannel_requires_both_signatures sBase uBadSig (by rfl) (by rfl) (by decide)
    (by decide) (by rfl) (Or.inl (by decide))

/-- C1 (code bug): under exactly the claim's preconditions — participant
caller, active channel in dispute, call at or before the deadline, an
update for this channel — `resolveDispute` always reverts with
`channelInDispute`, because it delegates to `updateChannel`, whose
`notInDispute` modifier reads the very dispute flag that `resolveDispute`
just required to be set.  The dispute can never be resolved this way. -/
theorem resolveDispute_always_reverts_on_own_channel (ctx : CallCtx) (s : SCState)
    (id : ChannelId) (u : StateUpdate)
    (hpart : isParticipant (getChannel s id) ctx.sender)
    (hdisp : isInDispute s id = true)
    (hdl : ctx.timestamp ≤ disputeDeadline s id)
    (hact : (getChannel s id).isActive = true)
    (hcid : u.channelId = id) :
    resolveDispute ctx s id u = .error .channelInDispute := by
  subst hcid
  have hu : updateChannel s u = .error .channelInDispute := by
    unfold updateChannel
    rw [if_neg (by simp [hact]), if_pos hdisp]
  simp only [resolveDispute]
  rw [if_neg (not_not_intro hpart), if_neg (by simp [hdisp]), if_neg (by omega), hu]

/-- Witness for C1: participant 2 presents the perfectly valid dual-signed
update `u1` before the deadline, and the call still reverts. -/
theorem resolveDispute_always_reverts_on_own_channel_witness :
    resolveDispute ctxResolve sDispute cid0 u1 = .error .channelInDispute :=
  resolveDispute_always_reverts_on_own_channel ctxResolve sDispute cid0 u1
    (by decide) (by rfl) (by decide) (by rfl) (by rfl)

/-- C8: assuming the contract can cover the relayer fee, `relayTransaction`
succeeds exactly when the relayer is authorized, the relayer signature
verifies over the packed (channelId, nonce, relayer), and the update passes
the full `updateChannel` validation; an unauthorized relayer is rejected
with `unauthorizedRelayer` (reverting, so nothing changes); and a
successful call applies the update and pays the relayer exactly
`relayerFee`. -/
theorem relayTransaction_correct (s : SCState) (u : StateUpdate) (relayer : Nat) (rsig : Sig)
    (hsolv : s.relayerFee ≤ s.contractBalance) :
    (isAuthorizedRelayer s relayer = false →
      relayTransaction s u relayer rsig = .error .unauthorizedRelayer) ∧
    ((∃ s', relayTransaction s u relayer rsig = .ok s') ↔
      (isAuthorizedRelayer s relayer = true ∧
       isValidSig (MsgHash.relayHash u.channelId u.nonce relayer) rsig relayer = true ∧
       ∃ s1, updateChannel s u = .ok s1)) ∧
    (∀ s', relayTransaction s u relayer rsig = .ok s' →
      s' = { updatedState s u with
               contractBalance := s.contractBalance - s.relayerFee
               transfers := s.transfers ++ [(relayer, s.relayerFee)] }) := by
  have hd : doTransfer (updatedState s u) relayer ((updatedState s u).relayerFee)
      = .ok { updatedState s u with
                contractBalance := s.contractBalance - s.relayerFee
                transfers := s.transfers ++ [(relayer, s.relayerFee)] } := by
    unfold doTransfer
    rw [if_neg (by rw [updatedState_contractBalance, updatedState_relayerFee]; omega)]
    simp only [updatedState_contractBalance, updatedState_relayerFee, updatedState_transfers]
  refine ⟨?_, ⟨?_, ?_⟩, ?_⟩
  · intro h
    unfold relayTransaction
    rw [if_pos h]
  · rintro ⟨s', h⟩
    unfold relayTransaction at h
    split_ifs at h with h1 h2
    cases hu : updateChannel s u with
    | error e => rw [hu] at h; simp at h
    | ok s1 => exact ⟨by simpa using h1, by simpa using h2, s1, rfl⟩
  · rintro ⟨h1, h2, s1, hu⟩
    unfold relayTransaction
    rw [if_neg (by simp [h1]), if_neg (by simp [h2]), hu]
    obtain ⟨-, -, -, -, -, -, -, hs1⟩ := updateChannel_ok_inv hu
    subst hs1
    exact ⟨_, by dsimp only; exact hd⟩
  · intro s' h
    unfold relayTransaction at h
    split_ifs at h with h1 h2
    cases hu : updateChannel s u with
    | error e => rw [hu] at h; simp at h
    | ok s1 =>
      rw [hu] at h
      obtain ⟨-, -, -, -, -, -, -, hs1⟩ := updateChannel_ok_inv hu
      subst hs1
      dsimp only at h
      rw [hd] at h
      injection h with h9
      exact h9.symm

/-- Witness for C8: relayer 5 (authorized in `sBase`) relays `u1` with a
valid relayer signature and the call succeeds, applying the update and
paying the fee of 2. -/
theorem relayTransaction_correct_witness :
    relayTransaction sBase u1 5 rsig1
      = .ok { updatedState sBase u1 with
                contractBalance := sBase.contractBalance - sBase.relayerFee
                transfers := sBase.transfers ++ [(5, sBase.relayerFee)] } := by
  have h := ((relayTransaction_correct sBase u1 5 rsig1 (by decide)).2.1).2
    ⟨by rfl, by rfl, updatedState sBase u1, by rfl⟩
  obtain ⟨s', hs'⟩ := h
  rw [hs', (relayTransaction_correct sBase u1 5 rsig1 (by decide)).2.2 s' hs']

/-- A successful transfer when the contract balance suffices. -/
theorem doTransfer_ok {s : SCState} {r a : Nat} (h : a ≤ s.contractBalance) :
    doTransfer s r a = .ok { s with contractBalance := s.contractBalance - a
                                    transfers := s.transfers ++ [(r, a)] } := by
  unfold doTransfer
  rw [if_neg (by omega)]

/-- Inversion of a successful `payOut`: the channel map, dispute map and
owner are untouched, and exactly the positive balances were transferred. -/
theorem payOut_inv {s : SCState} {c : ChannelData} {s' : SCState} (h : payOut s c = .ok s') :
    s'.channels = s.channels ∧ s'.inDispute = s.inDispute ∧ s'.owner = s.owner ∧
    s'.transfers = s.transfers ++
      ((if 0 < c.balance1 then [(c.participant1, c.balance1)] else []) ++
       (if 0 < c.balance2 then [(c.participant2, c.balance2)] else [])) := by
  unfold payOut at h
  split_ifs at h with hb1 hb2 hb3
  · split at h
    · next e heq => simp at h
    · next s3 heq =>
      unfold doTransfer at heq
      split_ifs at heq with hc
      injection heq with he
      subst he
      unfold doTransfer at h
      split_ifs at h with hc2
      injection h with h2
      subst h2
      simp [hb1, hb2]
  · split at h
    · next e heq => simp at h
    · next s3 heq =>
      unfold doTransfer at heq
      split_ifs at heq with hc
      injection heq with he
      subst he
      injection h with h2
      subst h2
      simp [hb1, hb2]
  · dsimp only at h
    unfold doTransfer at h
    split_ifs at h with hc2
    injection h with h2
    subst h2
    simp [hb1, hb3]
  · dsimp only at h
    injection h with h2
    subst h2
    simp [hb1, hb3]

/-- A solvent `emergencyWithdraw` on an inactive channel with a positive
stored total pays both stored balances out again and zeroes the record. -/
theorem emergencyWithdraw_pays (octx : CallCtx) (s : SCState) (id : ChannelId)
    (hown : octx.sender = s.owner)
    (hin : (getChannel s id).isActive = false)
    (hpos : 0 < (getChannel s id).balance1 + (getChannel s id).balance2)
    (hov : (getChannel s id).balance1 + (getChannel s id).balance2 < UINT256)
    (hsolv : (getChannel s id).balance1 + (getChannel s id).balance2 ≤ s.contractBalance) :
    ∃ s'', emergencyWithdraw octx s id = .ok s'' ∧
      s''.transfers = s.transfers ++
        [((getChannel s id).participant1, (getChannel s id).balance1),
         ((getChannel s id).participant2, (getChannel s id).balance2)] ∧
      (getChannel s'' id).balance1 = 0 ∧ (getChannel s'' id).balance2 = 0 := by
  simp only [emergencyWithdraw]
  rw [if_neg (not_not_intro hown), if_neg (by simp [hin]), if_neg (by omega),
    if_neg (by omega)]
  split
  · next e heq =>
    unfold doTransfer at heq
    split_ifs at heq with hc
    omega
  · next s1 heq =>
    unfold doTransfer at heq
    split_ifs at heq with hc
    injection heq with h1
    subst h1
    split
    · next e heq2 =>
      unfold doTransfer at heq2
      split_ifs at heq2 with hc2
      simp at hc2
      omega
    · next s2 heq2 =>
      unfold doTransfer at heq2
      split_ifs at heq2 with hc2
      injection heq2 with h2
      subst h2
      refine ⟨_, rfl, ?_, ?_, ?_⟩
      · simp
      · simp [getChannel, assocGet_assocSet_same]
      · simp [getChannel, assocGet_assocSet_same]

/-- Inversion of a successful `openChannel`: the returned id is the tuple
of (participants, block time, block number) and the new record is written
over whatever was stored under that id. -/
theorem openChannel_ok_inv {ctx : CallCtx} {s : SCState} {p1 p2 a1 a2 tmo : Nat}
    {id1 : ChannelId} {s1 : SCState}
    (h : openChannel ctx s p1 p2 a1 a2 tmo = .ok (id1, s1)) :
    id1 = { p1 := p1, p2 := p2, timestamp := ctx.timestamp, blockNumber := ctx.blockNumber } ∧
    s1 = { s with contractBalance := s.contractBalance + ctx.value
                  channels := assocSet s.channels
                    { p1 := p1, p2 := p2, timestamp := ctx.timestamp
                      blockNumber := ctx.blockNumber }
                    { participant1 := p1, participant2 := p2, balance1 := a1
                      balance2 := a2, nonce := 0, timeout := tmo, isActive := true } } := by
  simp only [openChannel] at h
  split_ifs at h
  injection h with h9
  rw [Prod.mk.injEq] at h9
  exact ⟨h9.1.symm, h9.2.symm⟩

/-- C5: for a disputed channel with total stored balance T, a participant
calling `withdrawTimelock` strictly after the deadline (with the contract
able to cover T) succeeds: participant1 is paid T / 2 and participant2 is
paid T - T / 2, the channel becomes inactive and the dispute is cleared;
at or before the deadline the call fails with `disputePeriodNotEnded`
(reverting, so no transfer happens). -/
theorem withdrawTimelock_splits_after_deadline (ctx : CallCtx) (s : SCState) (id : ChannelId)
    (hpart : isParticipant (getChannel s id) ctx.sender)
    (hdisp : isInDispute s id = true)
    (hov : (getChannel s id).balance1 + (getChannel s id).balance2 < UINT256)
    (hsolv : (getChannel s id).balance1 + (getChannel s id).balance2 ≤ s.contractBalance) :
    (disputeDeadline s id < ctx.timestamp →
      ∃ s', withdrawTimelock ctx s id = .ok s' ∧
        s'.transfers = s.transfers ++
          [((getChannel s id).participant1,
             ((getChannel s id).balance1 + (getChannel s id).balance2) / 2),
           ((getChannel s id).participant2,
             (getChannel s id).balance1 + (getChannel s id).balance2
               - ((getChannel s id).balance1 + (getChannel s id).balance2) / 2)] ∧
        (getChannel s' id).isActive = false ∧
        isInDispute s' id = false) ∧
    (ctx.timestamp ≤ disputeDeadline s id →
      withdrawTimelock ctx s id = .error .disputePeriodNotEnded) := by
  constructor
  · intro hdl
    simp only [withdrawTimelock]
    rw [if_neg (not_not_intro hpart), if_neg (by simp [hdisp]), if_neg (by omega),
      if_neg (by omega)]
    split
    · next e heq =>
      unfold doTransfer at heq
      split_ifs at heq with hc
      simp at hc
      omega
    · next s2 heq =>
      unfold doTransfer at heq
      split_ifs at heq with hc
      injection heq with h2
      subst h2
      refine ⟨_, doTransfer_ok (by simp; omega), ?_, ?_, ?_⟩
      · simp
      · simp [getChannel, assocGet_assocSet_same]
      · simp [isInDispute, assocGet_assocSet_same]
  · intro hdl
    simp only [withdrawTimelock]
    rw [if_neg (not_not_intro hpart), if_neg (by simp [hdisp]), if_pos (by omega)]

/-- Witness for C5: after the 88400 deadline, the disputed 4 + 6 channel is
split as 5 and 5. -/
theorem withdrawTimelock_splits_after_deadline_witness :
    ∃ s', withdrawTimelock ctxLate sDispute cid0 = .ok s' ∧
      s'.transfers = sDispute.transfers ++
        [((getChannel sDispute cid0).participant1,
           ((getChannel sDispute cid0).balance1 + (getChannel sDispute cid0).balance2) / 2),
         ((getChannel sDispute cid0).participant2,
           (getChannel sDispute cid0).balance1 + (getChannel sDispute cid0).balance2
             - ((getChannel sDispute cid0).balance1 + (getChannel sDispute cid0).balance2) / 2)] ∧
      (getChannel s' cid0).isActive = false ∧
      isInDispute s' cid0 = false :=
  (withdrawTimelock_splits_after_deadline ctxLate sDispute cid0 (by decide) (by rfl)
    (by decide) (by decide)).1 (by decide)

/-- C6 counterexample: on an inactive, undisputed channel, a participant's
`withdrawTimelock` fails with `noActiveDispute`, not `channelInactive` —
the function has no active-flag check at all. -/
theorem withdrawTimelock_inactive_error_counterexample :
    (getChannel sInact cid0).isActive = false ∧
    isInDispute sInact cid0 = false ∧
    withdrawTimelock ctxC6 sInact cid0 = .error .noActiveDispute ∧
    SCError.noActiveDispute ≠ SCError.channelInactive :=
  ⟨rfl, rfl, rfl, by decide⟩

/-- C6 (amended): on an already-inactive channel a participant's
`closeChannel` fails with `channelInactive`; `withdrawTimelock` also fails
with no transfer, but with `noActiveDispute` (inactive channels are never
in dispute), since it never checks the active flag. -/
theorem inactive_channel_termination_errors (ctx : CallCtx) (s : SCState) (id : ChannelId)
    (fu : StateUpdate)
    (hin : (getChannel s id).isActive = false)
    (hpart : isParticipant (getChannel s id) ctx.sender) :
    closeChannel ctx s id fu = .error .channelInactive ∧
    (isInDispute s id = false → withdrawTimelock ctx s id = .error .noActiveDispute) := by
  constructor
  · simp only [closeChannel]
    rw [if_neg (not_not_intro hpart), if_pos hin]
  · intro hnd
    simp only [withdrawTimelock]
    rw [if_neg (not_not_intro hpart), if_pos hnd]

/-- Witness for the amended C6 on the concrete inactive channel. -/
theorem inactive_channel_termination_errors_witness :
    closeChannel ctxC6 sInact cid0 u1 = .error .channelInactive ∧
    withdrawTimelock ctxC6 sInact cid0 = .error .noActiveDispute :=
  ⟨(inactive_channel_termination_errors ctxC6 sInact cid0 u1 (by rfl) (by decide)).1,
   (inactive_channel_termination_errors ctxC6 sInact cid0 u1 (by rfl) (by decide)).2 (by rfl)⟩

/-- C7 (code bug): `withdrawFees` transfers `address(this).balance` — the
whole contract balance, not just the accumulated fees.  On `sBase` (one
active channel with deposits 4 + 6, opened under a fee of 3) the owner
sweeps 13, the contract balance drops to 0 while the channel stays active
with recorded balances summing to 10, and a subsequent `closeChannel` by a
participant reverts with `transferFailed`: the deposits are gone. -/
theorem withdrawFees_sweeps_entire_contract_balance :
    withdrawFees ctxOwner sBase = .ok sSwept ∧
    sSwept.transfers = [(9, 13)] ∧
    sSwept.contractBalance = 0 ∧
    (getChannel sSwept cid0).isActive = true ∧
    (getChannel sSwept cid0).balance1 + (getChannel sSwept cid0).balance2 = 10 ∧
    closeChannel ctxCloseFail sSwept cid0 fuZero = .error .transferFailed :=
  ⟨rfl, rfl, rfl, rfl, rfl, rfl⟩

/-- C9: a successful `closeChannel` only clears the active flag — the
stored balances keep the amounts that were just paid out — so any normally
closed channel with a positive residual total satisfies
`emergencyWithdraw`'s inactive-channel condition, and the administrator
can pay the same amounts to the participants a second time (out of other
channels' deposits), zeroing the stored balances only then. -/
theorem closeChannel_keeps_balances_for_emergencyWithdraw (ctx : CallCtx) (s : SCState)
    (id : ChannelId) (fu : StateUpdate) (s' : SCState)
    (h : closeChannel ctx s id fu = .ok s') :
    (getChannel s' id).isActive = false ∧
    (∃ t0, s'.transfers = t0 ++
        ((if 0 < (getChannel s' id).balance1
          then [((getChannel s' id).participant1, (getChannel s' id).balance1)] else []) ++
         (if 0 < (getChannel s' id).balance2
          then [((getChannel s' id).participant2, (getChannel s' id).balance2)] else []))) ∧
    (∀ octx : CallCtx, octx.sender = s'.owner →
      0 < (getChannel s' id).balance1 + (getChannel s' id).balance2 →
      (getChannel s' id).balance1 + (getChannel s' id).balance2 < UINT256 →
      (getChannel s' id).balance1 + (getChannel s' id).balance2 ≤ s'.contractBalance →
      ∃ s'', emergencyWithdraw octx s' id = .ok s'' ∧
        s''.transfers = s'.transfers ++
          [((getChannel s' id).participant1, (getChannel s' id).balance1),
           ((getChannel s' id).participant2, (getChannel s' id).balance2)] ∧
        (getChannel s'' id).balance1 = 0 ∧ (getChannel s'' id).balance2 = 0) := by
  have main : (getChannel s' id).isActive = false ∧
      (∃ t0, s'.transfers = t0 ++
        ((if 0 < (getChannel s' id).balance1
          then [((getChannel s' id).participant1, (getChannel s' id).balance1)] else []) ++
         (if 0 < (getChannel s' id).balance2
          then [((getChannel s' id).participant2, (getChannel s' id).balance2)] else []))) := by
    simp only [closeChannel] at h
    split_ifs at h with h1 h2 h3 h4
    · split at h
      · next e heq => simp at h
      · next s1 heq =>
        obtain ⟨hch, -, -, htr⟩ := payOut_inv h
        have hg : getChannel s' id = { getChannel s1 id with isActive := false } := by
          rw [getChannel, hch]
          simp [assocGet_assocSet_same]
        refine ⟨by simp [hg], s1.transfers, ?_⟩
        simp only [hg]
        simpa using htr
    · dsimp only at h
      obtain ⟨hch, -, -, htr⟩ := payOut_inv h
      have hg : getChannel s' id = { getChannel s id with isActive := false } := by
        rw [getChannel, hch]
        simp [assocGet_assocSet_same]
      refine ⟨by simp [hg], s.transfers, ?_⟩
      simp only [hg]
      simpa using htr
  refine ⟨main.1, main.2, ?_⟩
  intro octx hown hpos hov hsolv
  exact emergencyWithdraw_pays octx s' id hown main.1 hpos hov hsolv

/-- Witness for C9: closing the 4 + 6 channel in `sRich` then letting the
owner call `emergencyWithdraw` pays 4 and 6 out a second time. -/
theorem closeChannel_keeps_balances_for_emergencyWithdraw_witness :
    (getChannel sC9 cid0).isActive = false ∧
    (∃ s'', emergencyWithdraw ctxOwner sC9 cid0 = .ok s'' ∧
      s''.transfers = sC9.transfers ++
        [((getChannel sC9 cid0).participant1, (getChannel sC9 cid0).balance1),
         ((getChannel sC9 cid0).participant2, (getChannel sC9 cid0).balance2)] ∧
      (getChannel s'' cid0).balance1 = 0 ∧ (getChannel s'' cid0).balance2 = 0) :=
  ⟨(closeChannel_keeps_balances_for_emergencyWithdraw ctxClose sRich cid0 fuZero sC9
      (by rfl)).1,
   (closeChannel_keeps_balances_for_emergencyWithdraw ctxClose sRich cid0 fuZero sC9
      (by rfl)).2.2 ctxOwner (by rfl) (by decide) (by decide) (by decide)⟩

/-- C10: the channel id depends only on (participant1, participant2,
block.timestamp, block.number) and `openChannel` writes the new record
unconditionally, so a second open for the same pair in the same block
yields the same id and silently overwrites the first record, while the
contract keeps both deposits — the first channel's funds are orphaned. -/
theorem openChannel_same_block_overwrites (ctx ctx2 : CallCtx) (s : SCState)
    (p1 p2 a1 a2 t1 b1 b2 t2 : Nat) (id1 id2 : ChannelId) (s1 s2 : SCState)
    (h1 : openChannel ctx s p1 p2 a1 a2 t1 = .ok (id1, s1))
    (h2 : openChannel ctx2 s1 p1 p2 b1 b2 t2 = .ok (id2, s2))
    (hts : ctx2.timestamp = ctx.timestamp) (hbn : ctx2.blockNumber = ctx.blockNumber) :
    id2 = id1 ∧
    getChannel s1 id1 = { participant1 := p1, participant2 := p2, balance1 := a1
                          balance2 := a2, nonce := 0, timeout := t1, isActive := true } ∧
    getChannel s2 id1 = { participant1 := p1, participant2 := p2, balance1 := b1
                          balance2 := b2, nonce := 0, timeout := t2, isActive := true } ∧
    s2.contractBalance = s.contractBalance + ctx.value + ctx2.value := by
  obtain ⟨hid1, hs1⟩ := openChannel_ok_inv h1
  obtain ⟨hid2, hs2⟩ := openChannel_ok_inv h2
  have hid : id2 = id1 := by rw [hid1, hid2, hts, hbn]
  subst hs1
  subst hs2
  refine ⟨hid, ?_, ?_, rfl⟩
  · rw [hid1, getChannel]
    simp [assocGet_assocSet_same]
  · rw [hid1, getChannel, hts, hbn]
    simp [assocGet_assocSet_same]

/-- Witness for C10: opening twice for participants 1 and 2 at time 1000
in block 7 reuses `cid0`; the second record (2, 8, timeout 7200) replaces
the first (4, 6, timeout 3600) while both 13-wei deposits sit on the
contract. -/
theorem openChannel_same_block_overwrites_witness :
    cid0 = cid0 ∧
    getChannel sO1 cid0 = { participant1 := 1, participant2 := 2, balance1 := 4
                            balance2 := 6, nonce := 0, timeout := 3600, isActive := true } ∧
    getChannel sO2 cid0 = { participant1 := 1, participant2 := 2, balance1 := 2
                            balance2 := 8, nonce := 0, timeout := 7200, isActive := true } ∧
    sO2.contractBalance = sPre.contractBalance + ctxOpen.value + ctxOpen.value :=
  openChannel_same_block_overwrites ctxOpen ctxOpen sPre 1 2 4 6 3600 2 8 7200
    cid0 cid0 sO1 sO2 (by rfl) (by rfl) rfl rfl

end StateChannel
